import Mathlib

/-!
Shallow embedding of vispy/visuals/volume.py (VolumeVisual and its GLSL
helper code).  GLSL float arithmetic is modelled over the exact rationals;
machine-float rounding and non-finite values are out of scope, except where
a claim is explicitly about a zero denominator.  GPU resources (texture,
vertex buffer, index buffer, shader program) are modelled by the observable
state the Python class keeps about them: the uploaded data, the uniform
values, which fragment shader is bound, and a generation counter that
increases every time the vertex/index buffers are (re)created.
-/

/-- GLSL vec3 over exact rationals. -/
structure Vec3 where
  x : ℚ
  y : ℚ
  z : ℚ
deriving DecidableEq

/-- GLSL vec4 over exact rationals. -/
structure Vec4 where
  x : ℚ
  y : ℚ
  z : ℚ
  w : ℚ
deriving DecidableEq

/-- Swizzle P.xyz of a vec4. -/
def Vec4.xyz (P : Vec4) : Vec3 := ⟨P.x, P.y, P.z⟩

/-- GLSL dot product on vec3. -/
def dot3 (a b : Vec3) : ℚ := a.x * b.x + a.y * b.y + a.z * b.z

/-- Numerator of d2P: nom = -(dot(P.xyz, p) - P.a)  (P.a is the fourth
component of the plane vector). -/
def d2Pnom (p : Vec3) (P : Vec4) : ℚ := -(dot3 P.xyz p - P.w)

/-- Denominator of d2P: denom = dot(P.xyz, d). -/
def d2Pdenom (d : Vec3) (P : Vec4) : ℚ := dot3 P.xyz d

/-- The invalidity test of d2P, exactly as in the shader source:
float invalid = float(nom == 0.0 || denom == 0.0 || nom * denom <= 0.0). -/
def d2Pinvalid (p d : Vec3) (P : Vec4) : Prop :=
  d2Pnom p P = 0 ∨ d2Pdenom d P = 0 ∨ d2Pnom p P * d2Pdenom d P ≤ 0

instance (p d : Vec3) (P : Vec4) : Decidable (d2Pinvalid p d P) := by
  unfold d2Pinvalid; infer_instance

/-- d2P from the calc_steps shader code: distance of point p to plane P
along direction d, with negative and invalid values blended (via the 0/1
selector float) into the very large value 999999.0. -/
def d2P (p d : Vec3) (P : Vec4) : ℚ :=
  let nom := d2Pnom p P
  let denom := d2Pdenom d P
  let invalid : ℚ := if d2Pinvalid p d P then 1 else 0
  ((1 - invalid) * nom + invalid * 999999) /
    ((1 - invalid) * denom + invalid * 1)

/-- eps = 0.000001 from calculate_steps. -/
def eps : ℚ := 1 / 1000000

/-- Running minimum over the six cuboid bounding planes and the extra clip
plane, starting from smallest = 999999.0, exactly in source order. -/
def sevenSmallest (edgeLoc ray : Vec3) (clip : Vec4) : ℚ :=
  min (min (min (min (min (min (min (999999 : ℚ)
    (d2P edgeLoc ray ⟨1, 0, 0, 0 - eps⟩))
    (d2P edgeLoc ray ⟨0, 1, 0, 0 - eps⟩))
    (d2P edgeLoc ray ⟨0, 0, 1, 0 - eps⟩))
    (d2P edgeLoc ray ⟨1, 0, 0, 1 + eps⟩))
    (d2P edgeLoc ray ⟨0, 1, 0, 1 + eps⟩))
    (d2P edgeLoc ray ⟨0, 0, 1, 1 + eps⟩))
    (d2P edgeLoc ray clip)

/-- smallest *= float(smallest < 10000.0): the sentinel clamp of
calculate_steps, written as the source writes it. -/
def clampSentinel (x : ℚ) : ℚ := x * (if x < 10000 then 1 else 0)

/-- GLSL int() conversion of a float: truncation toward zero. -/
def glslInt (x : ℚ) : ℤ := if 0 ≤ x then ⌊x⌋ else ⌈x⌉

/-- calculate_steps from the calc_steps shader code: minimum of the seven
plane distances, sentinel-clamped, then int(smallest + 0.5). -/
def calculate_steps (edgeLoc ray : Vec3) (clip : Vec4) : ℤ :=
  glslInt (clampSentinel (sevenSmallest edgeLoc ray clip) + 1 / 2)

/-- The branchless MIP in_loop update from MIP_SNIPPETS:
r = float(val > maxval); maxval = (1-r)*maxval + r*val;
maxi = (1-r)*maxi + r*float(iter).  Returns (maxval, maxi). -/
def mipBranchless (val maxval maxi iter : ℚ) : ℚ × ℚ :=
  let r : ℚ := if maxval < val then 1 else 0
  ((1 - r) * maxval + r * val, (1 - r) * maxi + r * iter)

/-- Modelled from the spec: the straightforward conditional MIP update,
the reference implementation the spec describes (if val > maxval then
update both maxval and maxi, else leave both unchanged). -/
def mipConditional (val maxval maxi iter : ℚ) : ℚ × ℚ :=
  if maxval < val then (val, iter) else (maxval, maxi)

/-- numpy dtype, reduced to the one distinction set_data observes:
whether np.array(vol, dtype=float32, copy=False) aliases the input. -/
inductive Dtype where
  | float32
  | other
deriving DecidableEq

/-- A numpy ndarray: shape, flattened sample data, dtype.  Values are
exact rationals (float rounding out of scope). -/
structure NDArray where
  shape : List ℕ
  data : List ℚ
  dtype : Dtype
deriving DecidableEq

/-- np.min of the flattened data; none models the ValueError numpy raises
on a zero-size reduction. -/
def listMin (l : List ℚ) : Option ℚ :=
  match l with
  | [] => none
  | x :: xs => some (xs.foldl min x)

/-- np.max of the flattened data; none on a zero-size reduction. -/
def listMax (l : List ℚ) : Option ℚ :=
  match l with
  | [] => none
  | x :: xs => some (xs.foldl max x)

/-- The shape validation of set_data:
(vol.ndim == 3) or (vol.ndim == 4 and vol.shape[-1] <= 4). -/
def rankOK (shape : List ℕ) : Bool :=
  shape.length == 3 ||
    (shape.length == 4 && decide (shape.getLastD 0 ≤ 4))

/-- Observable state of a VolumeVisual.  bufferGen counts how many times
the vertex/index buffers have been created; vbo and indexBuffer hold the
generation of the live buffer objects (none = Python None). -/
structure VolumeState where
  volShape : List ℕ
  vertexCacheId : Option (List ℕ)
  clim : Option (ℚ × ℚ)
  texData : List ℚ
  texShape : List ℕ
  uShape : List ℕ
  uThreshold : Option ℚ
  fragMethod : Option String
  methodName : Option String
  relStep : Option ℚ
  bufferGen : ℕ
  vbo : Option ℕ
  indexBuffer : Option ℕ
deriving DecidableEq

/-- The state set up by the body of VolumeVisual.__init__ just before its
internal set_data call: _vol_shape = (), _vertex_cache_id = (),
_clim = None, _vbo = None, _index_buffer = None, a fresh (10,10,10)
texture, no method chosen yet. -/
def initState : VolumeState :=
  { volShape := []
    vertexCacheId := some []
    clim := none
    texData := []
    texShape := [10, 10, 10]
    uShape := []
    uThreshold := none
    fragMethod := none
    methodName := none
    relStep := none
    bufferGen := 0
    vbo := none
    indexBuffer := none }

/-- _create_vertex_data: no-op when the cached shape matches _vol_shape;
otherwise deletes the old buffers and creates new VertexBuffer and
IndexBuffer objects (a fresh generation) and records the cache id.  The
concrete 8 corner vertices and 14 strip indices are not referenced by any
observable property modelled here, so only the buffer lifecycle is kept. -/
def createVertexData (s : VolumeState) : VolumeState :=
  if some s.volShape = s.vertexCacheId then s
  else
    { s with
      bufferGen := s.bufferGen + 1
      vbo := some (s.bufferGen + 1)
      indexBuffer := some (s.bufferGen + 1)
      vertexCacheId := some s.volShape }

/-- Result of a set_data call: the visual state after the call, the
(possibly in-place mutated) array the caller passed in, and the raised
error message, if any. -/
structure SetDataOut where
  state : VolumeState
  caller : NDArray
  err : Option String
deriving DecidableEq

/-- The second half of set_data, from the Apply-clim comment on: here
self._clim is guaranteed set.  vol = np.array(vol, dtype=float32,
copy=False) aliases the input exactly when it already is float32; then
vol -= clim[0]; vol *= 1.0/(clim[1]-clim[0]) mutate that array; the
result is uploaded to the texture, the u_shape uniform and _vol_shape are
updated, and _create_vertex_data runs only when _index_buffer is None. -/
def applyClim (s : VolumeState) (vol : NDArray) : SetDataOut :=
  let lo := (s.clim.getD (0, 0)).1
  let hi := (s.clim.getD (0, 0)).2
  let newData := vol.data.map (fun v => (v - lo) * (1 / (hi - lo)))
  let s1 := { s with
    texData := newData
    texShape := vol.shape
    uShape := [vol.shape.getD 2 0, vol.shape.getD 1 0, vol.shape.getD 0 0]
    volShape := vol.shape.take 3 }
  let s2 := if s1.indexBuffer = none then createVertexData s1 else s1
  let caller :=
    if vol.dtype = Dtype.float32 then { vol with data := newData } else vol
  ⟨s2, caller, none⟩

/-- VolumeVisual.set_data(vol, clim): validates the rank, handles the
clim argument (a malformed pair raises before any mutation; a missing
_clim is computed as vol.min(), vol.max(), which raises on a zero-size
array), then normalizes and uploads. -/
def set_data (s : VolumeState) (vol : NDArray) (clim : Option (List ℚ)) :
    SetDataOut :=
  if rankOK vol.shape then
    match clim with
    | some c =>
      if c.length = 2 then
        applyClim { s with clim := some (c.getD 0 0, c.getD 1 0) } vol
      else ⟨s, vol, some "clim must be a 2-element array-like"⟩
    | none =>
      match s.clim with
      | some _ => applyClim s vol
      | none =>
        match listMin vol.data, listMax vol.data with
        | some mn, some mx => applyClim { s with clim := some (mn, mx) } vol
        | _, _ =>
          ⟨s, vol, some "zero-size array to reduction operation minimum"⟩
  else ⟨s, vol, some "Volume visual needs a 3D image."⟩

/-- frag_dict: the mip and iso fragment shaders; no entry for ray. -/
def frag_dict (m : String) : Option String :=
  if m = "mip" then some "MIP_FRAG_SHADER"
  else if m = "iso" then some "ISO_FRAG_SHADER"
  else none

/-- The VolumeVisual.method setter.  Values outside known_methods =
(mip, iso, ray) raise ValueError before any mutation.  Otherwise
self._method is stored and the u_threshold uniform is cleared, and only
then frag_dict[method] is looked up: for ray this lookup raises KeyError,
leaving the earlier mutations in place.  For mip and iso the fragment
shader is rebound and the call succeeds. -/
def setMethod (s : VolumeState) (m : String) : VolumeState × Option String :=
  if m = "mip" ∨ m = "iso" ∨ m = "ray" then
    let s1 := { s with methodName := some m, uThreshold := none }
    match frag_dict m with
    | some f => ({ s1 with fragMethod := some f }, none)
    | none => (s1, some "KeyError")
  else (s, some "Volume render method should be in known_methods")

/-- The VolumeVisual.relative_step_size setter: raises ValueError for
values below 0.1, otherwise stores the value. -/
def relative_step_size (s : VolumeState) (value : ℚ) :
    VolumeState × Option String :=
  if value < 1 / 10 then
    (s, some "relative_step_size cannot be smaller than 0.1")
  else ({ s with relStep := some value }, none)

/-- d2P in closed form: the 0/1 blend equals an if-then-else between the
sentinel 999999 and the exact quotient. -/
lemma d2P_eq (p d : Vec3) (P : Vec4) :
    d2P p d P =
      if d2Pinvalid p d P then 999999 else d2Pnom p P / d2Pdenom d P := by
  simp only [d2P]
  by_cases h : d2Pinvalid p d P
  · simp [h]
  · simp [h]

/-- Every d2P result is nonnegative: invalid distances are the positive
sentinel, and valid ones are quotients of same-sign numerator and
denominator. -/
lemma d2P_nonneg (p d : Vec3) (P : Vec4) : 0 ≤ d2P p d P := by
  rw [d2P_eq]
  by_cases h : d2Pinvalid p d P
  · simp [h]
  · simp only [if_neg h]
    unfold d2Pinvalid at h
    push_neg at h
    rcases mul_pos_iff.mp h.2.2 with ⟨hn, hd⟩ | ⟨hn, hd⟩
    · exact (div_pos hn hd).le
    · rw [← neg_div_neg_eq]
      exact (div_pos (by linarith) (by linarith)).le

lemma sevenSmallest_nonneg (edgeLoc ray : Vec3) (clip : Vec4) :
    0 ≤ sevenSmallest edgeLoc ray clip := by
  unfold sevenSmallest
  repeat' apply le_min
  all_goals first
    | exact d2P_nonneg _ _ _
    | norm_num

lemma clampSentinel_nonneg (x : ℚ) (h : 0 ≤ x) : 0 ≤ clampSentinel x := by
  unfold clampSentinel
  split <;> simp [h]

lemma glslInt_nonneg (x : ℚ) (h : 0 ≤ x) : 0 ≤ glslInt x := by
  unfold glslInt
  rw [if_pos h]
  exact Int.floor_nonneg.mpr h

/-- Claim C7: for every entry point, ray step and clip plane (degenerate
rays included), calculate_steps returns a nonnegative integer, never a
negative value: the minimum of the seven plane distances is clamped to
zero when at or above the sentinel threshold 10000, and otherwise rounded
to the nearest integer (half up). -/
theorem calculate_steps_safe (edgeLoc ray : Vec3) (clip : Vec4) :
    0 ≤ calculate_steps edgeLoc ray clip ∧
    calculate_steps edgeLoc ray clip
      = if sevenSmallest edgeLoc ray clip < 10000
        then ⌊sevenSmallest edgeLoc ray clip + 1 / 2⌋
        else 0 := by
  have hs := sevenSmallest_nonneg edgeLoc ray clip
  constructor
  · unfold calculate_steps
    apply glslInt_nonneg
    have h := clampSentinel_nonneg _ hs
    linarith
  · unfold calculate_steps glslInt clampSentinel
    by_cases h : sevenSmallest edgeLoc ray clip < 10000
    · simp only [if_pos h, mul_one]
      rw [if_pos (by linarith :
        (0 : ℚ) ≤ sevenSmallest edgeLoc ray clip + 1 / 2)]
    · simp only [if_neg h, mul_zero, zero_add]
      rw [if_pos (by norm_num : (0 : ℚ) ≤ 1 / 2)]
      norm_num

/-- Claim C8: the branchless MIP per-iteration update is extensionally
equal to the straightforward conditional update, for every val, maxval,
maxi and iteration index. -/
theorem mip_branchless_eq_conditional (val maxval maxi iter : ℚ) :
    mipBranchless val maxval maxi iter = mipConditional val maxval maxi iter := by
  unfold mipBranchless mipConditional
  by_cases h : maxval < val <;> simp [h]

/-- Claim C2 counterexample: at p = (0,0,0), d = (1,0,0),
P = (1,0,0,1) the numerator and denominator are both 1 (same sign), yet
d2P returns the exact quotient 1 rather than the sentinel 999999, so
same-sign numerator and denominator is not an invalid case. -/
theorem d2P_same_sign_valid_counterexample :
    d2Pnom ⟨0, 0, 0⟩ ⟨1, 0, 0, 1⟩ = 1 ∧
    d2Pdenom ⟨1, 0, 0⟩ ⟨1, 0, 0, 1⟩ = 1 ∧
    d2P ⟨0, 0, 0⟩ ⟨1, 0, 0⟩ ⟨1, 0, 0, 1⟩ = 1 ∧
    (1 : ℚ) ≠ 999999 := by
  refine ⟨?_, ?_, ?_, by norm_num⟩
  · norm_num [d2Pnom, dot3, Vec4.xyz]
  · norm_num [d2Pdenom, dot3, Vec4.xyz]
  · rw [d2P_eq,
      if_neg (by norm_num [d2Pinvalid, d2Pnom, d2Pdenom, dot3, Vec4.xyz])]
    norm_num [d2Pnom, d2Pdenom, dot3, Vec4.xyz]

/-- Claim C2 amended: the returned distance is the sentinel 999999
exactly when the numerator is zero, the denominator is zero, or numerator
and denominator have opposite signs (product at most zero, i.e. the exact
quotient would be nonpositive); otherwise the exact quotient
numerator/denominator is returned. -/
theorem d2P_invalid_cases (p d : Vec3) (P : Vec4) :
    (d2Pinvalid p d P → d2P p d P = 999999) ∧
    (¬ d2Pinvalid p d P → d2P p d P = d2Pnom p P / d2Pdenom d P) := by
  constructor <;> intro h <;> rw [d2P_eq] <;> simp [h]

/-- Witness for d2P_invalid_cases at concrete inputs: one invalid plane
(numerator -eps, denominator 1, opposite signs) and one valid plane
(numerator 1, denominator 1). -/
theorem d2P_invalid_cases_witness :
    d2P ⟨0, 0, 0⟩ ⟨1, 0, 0⟩ ⟨1, 0, 0, 0 - eps⟩ = 999999 ∧
    d2P ⟨0, 0, 0⟩ ⟨1, 0, 0⟩ ⟨1, 0, 0, 2⟩ = 2 := by
  constructor
  · exact (d2P_invalid_cases ⟨0, 0, 0⟩ ⟨1, 0, 0⟩ ⟨1, 0, 0, 0 - eps⟩).1
      (by norm_num [d2Pinvalid, d2Pnom, d2Pdenom, dot3, Vec4.xyz, eps])
  · rw [(d2P_invalid_cases ⟨0, 0, 0⟩ ⟨1, 0, 0⟩ ⟨1, 0, 0, 2⟩).2
      (by norm_num [d2Pinvalid, d2Pnom, d2Pdenom, dot3, Vec4.xyz])]
    norm_num [d2Pnom, d2Pdenom, dot3, Vec4.xyz]

lemma createVertexData_clim (s : VolumeState) :
    (createVertexData s).clim = s.clim := by
  unfold createVertexData
  split <;> rfl

lemma createVertexData_texData (s : VolumeState) :
    (createVertexData s).texData = s.texData := by
  unfold createVertexData
  split <;> rfl

lemma applyClim_err (s : VolumeState) (vol : NDArray) :
    (applyClim s vol).err = none := by
  simp [applyClim]

lemma applyClim_clim (s : VolumeState) (vol : NDArray) :
    (applyClim s vol).state.clim = s.clim := by
  simp only [applyClim]
  split <;> simp [createVertexData_clim]

lemma applyClim_caller (s : VolumeState) (vol : NDArray) :
    (applyClim s vol).caller
      = if vol.dtype = Dtype.float32
        then { vol with data := (applyClim s vol).state.texData }
        else vol := by
  by_cases hd : vol.dtype = Dtype.float32 <;>
    by_cases hib : s.indexBuffer = none <;>
    simp [applyClim, createVertexData_texData, hd, hib]

/-- Claim C1 (code-bug evidence): after the initial build, a set_data
call whose volume has a different voxel-grid shape does NOT regenerate
the vertex/index buffers: set_data runs _create_vertex_data only when
_index_buffer is None, which only holds before the first build.  After a
first volume of shape (2,1,1) and a second of shape (3,1,1), the buffer
generation count is still 1 and the cached vertex shape is the stale
(2,1,1) even though _vol_shape is (3,1,1). -/
theorem shape_change_does_not_regenerate_buffers :
    (set_data initState ⟨[2, 1, 1], [0, 1], Dtype.float32⟩ none).err = none ∧
    (set_data initState ⟨[2, 1, 1], [0, 1], Dtype.float32⟩ none).state.volShape
      = [2, 1, 1] ∧
    (set_data initState ⟨[2, 1, 1], [0, 1], Dtype.float32⟩ none).state.bufferGen
      = 1 ∧
    (set_data (set_data initState ⟨[2, 1, 1], [0, 1], Dtype.float32⟩ none).state
        ⟨[3, 1, 1], [0, 1, 2], Dtype.float32⟩ none).err = none ∧
    (set_data (set_data initState ⟨[2, 1, 1], [0, 1], Dtype.float32⟩ none).state
        ⟨[3, 1, 1], [0, 1, 2], Dtype.float32⟩ none).state.volShape = [3, 1, 1] ∧
    (set_data (set_data initState ⟨[2, 1, 1], [0, 1], Dtype.float32⟩ none).state
        ⟨[3, 1, 1], [0, 1, 2], Dtype.float32⟩ none).state.bufferGen = 1 ∧
    (set_data (set_data initState ⟨[2, 1, 1], [0, 1], Dtype.float32⟩ none).state
        ⟨[3, 1, 1], [0, 1, 2], Dtype.float32⟩ none).state.vertexCacheId
      = some [2, 1, 1] := by
  simp [set_data, applyClim, rankOK, listMin, listMax, initState,
    createVertexData, min_def, max_def]

/-- Claim C5 (code-bug evidence): the method setter succeeds for mip and
iso, clearing the u_threshold uniform and rebinding the method fragment
shader; an arbitrary unknown value is rejected by validation with no
mutation; but the reserved value ray passes validation, stores itself as
_method and clears the threshold uniform, and only then fails with a
KeyError from the frag_dict lookup instead of the invalid-input
ValueError. -/
theorem setMethod_ray_keyerror :
    (setMethod { initState with uThreshold := some 1 } "mip").2 = none ∧
    (setMethod { initState with uThreshold := some 1 } "mip").1.uThreshold
      = none ∧
    (setMethod { initState with uThreshold := some 1 } "mip").1.fragMethod
      = some "MIP_FRAG_SHADER" ∧
    (setMethod { initState with uThreshold := some 1 } "iso").2 = none ∧
    (setMethod { initState with uThreshold := some 1 } "iso").1.fragMethod
      = some "ISO_FRAG_SHADER" ∧
    (setMethod initState "foo").2
      = some "Volume render method should be in known_methods" ∧
    (setMethod initState "foo").1 = initState ∧
    (setMethod { initState with uThreshold := some 1 } "ray").2
      = some "KeyError" ∧
    (setMethod { initState with uThreshold := some 1 } "ray").1.methodName
      = some "ray" ∧
    (setMethod { initState with uThreshold := some 1 } "ray").1.uThreshold
      = none := by
  simp [setMethod, frag_dict, initState]

/-- Claim C4 counterexample: setting the reserved method value ray raises
an error, yet the state after the failed call is not the state before the
call: the stored method and the cleared threshold uniform have changed. -/
theorem setMethod_ray_not_atomic :
    ((setMethod { initState with uThreshold := some 1 } "ray").2).isSome
      = true ∧
    (setMethod { initState with uThreshold := some 1 } "ray").1
      ≠ { initState with uThreshold := some 1 } := by
  constructor
  · simp [setMethod, frag_dict]
  · intro hcontra
    have h2 := congrArg VolumeState.uThreshold hcontra
    simp [setMethod, frag_dict, initState] at h2

/-- Claim C4 amended: every explicitly validated invalid-input error is
atomic: a failing set_data leaves both the visual state and the caller
array untouched, a failing relative_step_size leaves the state untouched,
and a failing method setter leaves the state untouched for every value
other than the reserved value ray (whose late KeyError is the exception
established by the counterexample). -/
theorem setters_atomic_on_valueerror :
    (∀ (s : VolumeState) (vol : NDArray) (clim : Option (List ℚ))
        (e : String), (set_data s vol clim).err = some e →
      (set_data s vol clim).state = s ∧ (set_data s vol clim).caller = vol) ∧
    (∀ (s : VolumeState) (v : ℚ) (e : String),
        (relative_step_size s v).2 = some e → (relative_step_size s v).1 = s) ∧
    (∀ (s : VolumeState) (m : String) (e : String), m ≠ "ray" →
        (setMethod s m).2 = some e → (setMethod s m).1 = s) := by
  refine ⟨?_, ?_, ?_⟩
  · intro s vol clim e h
    unfold set_data at h ⊢
    repeat' split at h
    all_goals simp_all [applyClim]
  · intro s v e h
    unfold relative_step_size at h ⊢
    split at h
    all_goals simp_all
  · intro s m e hray h
    unfold setMethod at h ⊢
    by_cases hk : m = "mip" ∨ m = "iso" ∨ m = "ray"
    · rw [if_pos hk] at h ⊢
      rcases hk with h1 | h1 | h1
      · subst h1
        simp [frag_dict] at h
      · subst h1
        simp [frag_dict] at h
      · subst h1
        exact absurd rfl hray
    · rw [if_neg hk] at h ⊢

/-- Witness for setters_atomic_on_valueerror: a rank-2 array, a step size
of 0 and an unknown method name all fail and leave the state untouched. -/
theorem setters_atomic_on_valueerror_witness :
    (set_data initState ⟨[1, 1], [0], Dtype.float32⟩ none).state = initState ∧
    (relative_step_size initState 0).1 = initState ∧
    (setMethod initState "foo").1 = initState := by
  refine ⟨(setters_atomic_on_valueerror.1 initState ⟨[1, 1], [0], Dtype.float32⟩
      none "Volume visual needs a 3D image." ?_).1,
    setters_atomic_on_valueerror.2.1 initState 0
      "relative_step_size cannot be smaller than 0.1" ?_,
    setters_atomic_on_valueerror.2.2 initState "foo"
      "Volume render method should be in known_methods" (by simp) ?_⟩
  · simp [set_data, rankOK]
  · norm_num [relative_step_size]
  · simp [setMethod]

/-- Claim C3 counterexample: with volume data (0, 2) and contrast limits
low = 0 < high = 1, set_data succeeds and uploads the sample value 2,
which does not lie in the interval from 0 to 1. -/
theorem set_data_normalization_counterexample :
    (0 : ℚ) < 1 ∧
    (set_data initState ⟨[2, 1, 1], [0, 2], Dtype.float32⟩
      (some [0, 1])).err = none ∧
    (set_data initState ⟨[2, 1, 1], [0, 2], Dtype.float32⟩
      (some [0, 1])).state.texData = [0, 2] ∧
    ¬ ((2 : ℚ) ≤ 1) := by
  refine ⟨by norm_num, ?_, ?_, by norm_num⟩ <;>
    simp [set_data, applyClim, rankOK, initState, createVertexData_texData]

/-- Claim C3 amended: for low < high, set_data with clim = (low, high)
maps each sample v to (v - low) / (high - low); a sample inside the
contrast window lands in the unit interval, a sample equal to low maps to
0 and a sample equal to high maps to 1 (samples outside the window leave
the unit interval, as the counterexample shows). -/
theorem set_data_normalization (s : VolumeState) (vol : NDArray)
    (low high : ℚ) (hlh : low < high) (hok : rankOK vol.shape = true) :
    (set_data s vol (some [low, high])).err = none ∧
    (set_data s vol (some [low, high])).state.texData
      = vol.data.map (fun v => (v - low) * (1 / (high - low))) ∧
    ∀ v ∈ vol.data,
      (low ≤ v → v ≤ high →
        0 ≤ (v - low) * (1 / (high - low)) ∧
          (v - low) * (1 / (high - low)) ≤ 1) ∧
      (v = low → (v - low) * (1 / (high - low)) = 0) ∧
      (v = high → (v - low) * (1 / (high - low)) = 1) := by
  have hpos : (0 : ℚ) < high - low := by linarith
  have hkey : set_data s vol (some [low, high])
      = applyClim { s with clim := some (low, high) } vol := by
    unfold set_data
    rw [if_pos hok]
    simp
  rw [hkey]
  refine ⟨applyClim_err _ _, ?_, ?_⟩
  · by_cases hib : s.indexBuffer = none <;>
      simp [applyClim, createVertexData_texData, hib]
  · intro v _
    refine ⟨fun h1 h2 => ⟨?_, ?_⟩, fun h => ?_, fun h => ?_⟩
    · exact mul_nonneg (by linarith) (one_div_pos.mpr hpos).le
    · rw [mul_one_div, div_le_one hpos]
      linarith
    · subst h
      ring
    · subst h
      rw [mul_one_div, div_self (ne_of_gt hpos)]

/-- Witness for set_data_normalization at a concrete call: the single
sample 1/2 with clim = (0, 1) is uploaded unchanged as 1/2. -/
theorem set_data_normalization_witness :
    (set_data initState ⟨[1, 1, 1], [1/2], Dtype.float32⟩
      (some [0, 1])).err = none ∧
    (set_data initState ⟨[1, 1, 1], [1/2], Dtype.float32⟩
      (some [0, 1])).state.texData = [1/2] := by
  have h := set_data_normalization initState ⟨[1, 1, 1], [1/2], Dtype.float32⟩
    0 1 (by norm_num) rfl
  refine ⟨h.1, ?_⟩
  rw [h.2.1]
  norm_num

/-- Claim C6 counterexample: the empty rank-3 array (shape (0,1,1)) has
valid rank, yet set_data with no stored contrast limits fails, because
vol.min() raises on a zero-size array. -/
theorem set_data_rank3_empty_fails :
    rankOK [0, 1, 1] = true ∧
    (set_data initState ⟨[0, 1, 1], [], Dtype.float32⟩ none).err
      = some "zero-size array to reduction operation minimum" := by
  constructor
  · rfl
  · simp [set_data, rankOK, initState, listMin, listMax]

/-- Claim C6 amended: for every nonempty array and default contrast
limits, set_data succeeds exactly when the array has rank 3, or rank 4
with trailing dimension at most 4; for empty arrays the min/max reduction
raises even at valid rank (the counterexample). -/
theorem set_data_rank_criterion (s : VolumeState) (vol : NDArray)
    (hne : vol.data ≠ []) :
    (set_data s vol none).err = none ↔ rankOK vol.shape = true := by
  constructor
  · intro h
    by_contra hr
    unfold set_data at h
    rw [if_neg hr] at h
    simp at h
  · intro hr
    unfold set_data
    rw [if_pos hr]
    cases hcl : s.clim with
    | some p => simp [applyClim_err]
    | none =>
      cases hd : vol.data with
      | nil => exact absurd hd hne
      | cons x xs => simp [listMin, listMax, applyClim_err]

/-- Witness for set_data_rank_criterion: a nonempty 1x1x1 volume is
accepted. -/
theorem set_data_rank_criterion_witness :
    (set_data initState ⟨[1, 1, 1], [5], Dtype.float32⟩ none).err = none :=
  (set_data_rank_criterion initState ⟨[1, 1, 1], [5], Dtype.float32⟩
    (by simp)).mpr rfl

lemma foldl_min_const (c : ℚ) (l : List ℚ) (h : ∀ v ∈ l, v = c) :
    l.foldl min c = c := by
  induction l with
  | nil => rfl
  | cons x xs ih =>
    have hx : x = c := h x (by simp)
    subst hx
    simp only [List.foldl_cons, min_self]
    exact ih (fun v hv => h v (by simp [hv]))

lemma foldl_max_const (c : ℚ) (l : List ℚ) (h : ∀ v ∈ l, v = c) :
    l.foldl max c = c := by
  induction l with
  | nil => rfl
  | cons x xs ih =>
    have hx : x = c := h x (by simp)
    subst hx
    simp only [List.foldl_cons, max_self]
    exact ih (fun v hv => h v (by simp [hv]))

lemma listMin_const (c : ℚ) (l : List ℚ) (hne : l ≠ [])
    (h : ∀ v ∈ l, v = c) : listMin l = some c := by
  cases l with
  | nil => exact absurd rfl hne
  | cons x xs =>
    have hx : x = c := h x (List.mem_cons_self x xs)
    have hxs : ∀ v ∈ xs, v = c := fun v hv => h v (List.mem_cons_of_mem x hv)
    simp only [listMin]
    rw [hx, foldl_min_const c xs hxs]

lemma listMax_const (c : ℚ) (l : List ℚ) (hne : l ≠ [])
    (h : ∀ v ∈ l, v = c) : listMax l = some c := by
  cases l with
  | nil => exact absurd rfl hne
  | cons x xs =>
    have hx : x = c := h x (List.mem_cons_self x xs)
    have hxs : ∀ v ∈ xs, v = c := fun v hv => h v (List.mem_cons_of_mem x hv)
    simp only [listMax]
    rw [hx, foldl_max_const c xs hxs]

/-- Claim C9: when the input volume is already a float32 array,
np.array(vol, float32, copy=False) aliases it, so the in-place
subtraction and scaling leave the callers own array holding exactly the
normalized values uploaded to the texture; an input of any other dtype is
copied and the callers array is returned unchanged. -/
theorem set_data_inplace_mutation (s : VolumeState) (vol : NDArray)
    (clim : Option (List ℚ)) (h : (set_data s vol clim).err = none) :
    (set_data s vol clim).caller
      = if vol.dtype = Dtype.float32
        then { vol with data := (set_data s vol clim).state.texData }
        else vol := by
  have hgen : ∀ s' : VolumeState, (applyClim s' vol).caller
      = if vol.dtype = Dtype.float32
        then { vol with data := (applyClim s' vol).state.texData }
        else vol := fun s' => applyClim_caller s' vol
  unfold set_data at h ⊢
  by_cases hr : rankOK vol.shape = true
  · rw [if_pos hr] at h ⊢
    cases clim with
    | some c =>
      dsimp only at h ⊢
      by_cases hc : c.length = 2
      · rw [if_pos hc] at h ⊢
        exact hgen _
      · rw [if_neg hc] at h
        simp at h
    | none =>
      dsimp only at h ⊢
      cases hcl : s.clim with
      | some p =>
        simp only [hcl] at h ⊢
        exact hgen _
      | none =>
        simp only [hcl] at h ⊢
        cases hmn : listMin vol.data with
        | none =>
          simp only [hmn] at h
          simp at h
        | some mn =>
          cases hmx : listMax vol.data with
          | none =>
            simp only [hmn, hmx] at h
            simp at h
          | some mx =>
            simp only [hmn, hmx] at h ⊢
            exact hgen _
  · rw [if_neg hr] at h
    simp at h

/-- Witness for set_data_inplace_mutation: a float32 volume with sample 3
and clim (0, 1); after the call the callers array holds the uploaded
(and here unchanged) normalized data. -/
theorem set_data_inplace_mutation_witness :
    (set_data initState ⟨[1, 1, 1], [3], Dtype.float32⟩
        (some [0, 1])).caller
      = { shape := [1, 1, 1],
          data := (set_data initState ⟨[1, 1, 1], [3], Dtype.float32⟩
            (some [0, 1])).state.texData,
          dtype := Dtype.float32 } := by
  have h := set_data_inplace_mutation initState ⟨[1, 1, 1], [3], Dtype.float32⟩
    (some [0, 1]) (by simp [set_data, applyClim, rankOK, initState])
  simpa using h

/-- Claim C10: for a constant-valued volume with no stored and no passed
contrast limits, set_data computes clim = (min, max) = (c, c) and raises
no invalid-input error; the normalization scale 1.0/(clim[1]-clim[0]) is
then a division by zero (zero denominator; in IEEE float arithmetic the
uploaded samples become non-finite). -/
theorem set_data_equal_clim_division_by_zero (s : VolumeState)
    (vol : NDArray) (c : ℚ) (hclim : s.clim = none)
    (hr : rankOK vol.shape = true) (hne : vol.data ≠ [])
    (hconst : ∀ v ∈ vol.data, v = c) :
    (set_data s vol none).err = none ∧
    (set_data s vol none).state.clim = some (c, c) ∧
    ((set_data s vol none).state.clim.map (fun p => p.2 - p.1))
      = some 0 := by
  have hmin : listMin vol.data = some c := listMin_const c vol.data hne hconst
  have hmax : listMax vol.data = some c := listMax_const c vol.data hne hconst
  unfold set_data
  rw [if_pos hr]
  simp only [hclim, hmin, hmax]
  refine ⟨applyClim_err _ _, ?_, ?_⟩
  · rw [applyClim_clim]
  · rw [applyClim_clim]
    simp

/-- Witness for set_data_equal_clim_division_by_zero: the constant 1x1x1
volume holding the single sample 7. -/
theorem set_data_equal_clim_division_by_zero_witness :
    (set_data initState ⟨[1, 1, 1], [7], Dtype.float32⟩ none).err = none ∧
    (set_data initState ⟨[1, 1, 1], [7], Dtype.float32⟩ none).state.clim
      = some (7, 7) := by
  have h := set_data_equal_clim_division_by_zero initState
    ⟨[1, 1, 1], [7], Dtype.float32⟩ 7 rfl rfl (by simp) (by simp)
  exact ⟨h.1, h.2.1⟩
